import Mathlib

/-
Verification of the flxyJS client-side routing core.

The repository contains two iterations of the router module:
  * `src/src/common/router.js`   (namespace `RouterJs` below), and
  * the router half of `src/src/common/template.js` (namespace `TemplateJs` below),
    which adds the `Router.navigating` single-flight lock and URL-target parsing.

Shared machinery (route registry objects, the dynamic-segment matcher, the
middleware pipeline, the query codec) is embedded once in namespace `Flxy`.

JavaScript objects with string keys are embedded as insertion-ordered
association lists; `URLSearchParams` values are embedded as ordered lists of
key/value pairs.  Handlers and middlewares are embedded as Lean functions
returning an explicit outcome (returned value or thrown exception).
-/

namespace Flxy

/-- JavaScript runtime values, as far as the router inspects them: the router
only ever asks whether a middleware result is truthy. -/
inductive JSValue where
  | undef
  | null
  | bool (b : Bool)
  | num (n : Int)
  | str (s : String)
  | obj
deriving DecidableEq

/-- JavaScript truthiness of an embedded value (floating-point NaN is not
representable here; the router never produces it). -/
def JSValue.truthy : JSValue → Bool
  | .undef => false
  | .null => false
  | .bool b => b
  | .num n => n != 0
  | .str s => s != ""
  | .obj => true

/-- A plain JavaScript object with string keys, embedded as an
insertion-ordered association list with unique keys maintained by
`objUpsert`. -/
abbrev Obj := List (String × String)

/-- An embedded `URLSearchParams` value: an ordered list of decoded key/value
pairs (duplicate keys allowed). -/
abbrev Params := List (String × String)

/-- Property write `o[k] = v` on a JavaScript object: replaces the value in
place if the key exists (keeping its position), otherwise appends. -/
def objUpsert {α : Type} : List (String × α) → String → α → List (String × α)
  | [], k, v => [(k, v)]
  | (k', v') :: rest, k, v =>
    if k' == k then (k, v) :: rest else (k', v') :: objUpsert rest k v

/-- Property read `o[k]` on a JavaScript object (first binding, since
`objUpsert` keeps keys unique); also serves as `URLSearchParams.get`, which
returns the first value for the key or null. -/
def objGet {α : Type} : List (String × α) → String → Option α
  | [], _ => none
  | (k', v) :: rest, k => if k' == k then some v else objGet rest k

/-- `Object.fromEntries`: folds the pairs into a fresh object, so a later
duplicate key overwrites the value while the key keeps its first position. -/
def fromEntries (l : List (String × String)) : Obj :=
  l.foldl (fun acc kv => objUpsert acc kv.1 kv.2) []

/-- Object spread `\x7b...a, ...b\x7d`: the own entries of `b` written over `a`
in order. -/
def objAssign (a b : Obj) : Obj :=
  b.foldl (fun acc kv => objUpsert acc kv.1 kv.2) a

/-- Splits a character list on every occurrence of `sep`; mirrors
`String.splitOn` for a one-character separator (used for the `/`, `&`, `?`
separators in the router). -/
def splitOnChar (sep : Char) : List Char → List (List Char)
  | [] => [[]]
  | c :: rest =>
    let r := splitOnChar sep rest
    if c == sep then [] :: r
    else
      match r with
      | [] => [[c]]
      | g :: gs => (c :: g) :: gs

/-- Splits a character list at the first occurrence of `sep`, returning the
parts before and after it, or `none` when `sep` does not occur. -/
def splitAtChar (sep : Char) : List Char → Option (List Char × List Char)
  | [] => none
  | c :: rest =>
    if c == sep then some ([], rest)
    else (splitAtChar sep rest).map (fun pr => (c :: pr.1, pr.2))

/-- Consumes `lead` as the leading characters of the second list, returning
the remainder when the second list starts with `lead`. -/
def consumeLead : List Char → List Char → Option (List Char)
  | [], rest => some rest
  | _ :: _, [] => none
  | a :: as, b :: bs => if a == b then consumeLead as bs else none

/-- Uppercase hexadecimal digit for a value below 16. -/
def hexDigitChar (n : Nat) : Char :=
  if n < 10 then Char.ofNat (48 + n) else Char.ofNat (55 + n)

/-- Characters `application/x-www-form-urlencoded` serialization leaves
unescaped: ASCII alphanumerics and `*`, `-`, `.`, `_`. -/
def isUrlSafeChar (c : Char) : Bool :=
  c.isAlphanum || c == '*' || c == '-' || c == '.' || c == '_'

/-- UTF-8 encoding of one code point, as a list of byte values. -/
def utf8BytesOf (c : Char) : List Nat :=
  let n := c.toNat
  if n < 0x80 then [n]
  else if n < 0x800 then [0xC0 + n / 0x40, 0x80 + n % 0x40]
  else if n < 0x10000 then
    [0xE0 + n / 0x1000, 0x80 + (n / 0x40) % 0x40, 0x80 + n % 0x40]
  else
    [0xF0 + n / 0x40000, 0x80 + (n / 0x1000) % 0x40,
     0x80 + (n / 0x40) % 0x40, 0x80 + n % 0x40]

/-- Percent-escape of one byte, written `%HH` with uppercase hex digits. -/
def percentByte (b : Nat) : List Char :=
  ['%', hexDigitChar (b / 16), hexDigitChar (b % 16)]

/-- Form-urlencoding of one character: safe characters stay, space becomes
`+`, everything else is percent-escaped bytewise. -/
def encodeChar (c : Char) : List Char :=
  if isUrlSafeChar c then [c]
  else if c == ' ' then ['+']
  else (utf8BytesOf c).foldr (fun b acc => percentByte b ++ acc) []

/-- Form-urlencoding of a full component, character by character. -/
def encodeComponent (s : String) : String :=
  String.mk (s.data.foldr (fun c acc => encodeChar c ++ acc) [])

/-- `URLSearchParams.toString()`: each pair serialized as `key=value` with
both sides form-urlencoded, pairs joined by `&`. -/
def serializeParams (p : Params) : String :=
  String.intercalate "&" (p.map (fun kv => encodeComponent kv.1 ++ "=" ++ encodeComponent kv.2))

/-- Hexadecimal value of one digit character, if it is one. -/
def hexVal (c : Char) : Option Nat :=
  let n := c.toNat
  if 48 ≤ n ∧ n ≤ 57 then some (n - 48)
  else if 65 ≤ n ∧ n ≤ 70 then some (n - 55)
  else if 97 ≤ n ∧ n ≤ 102 then some (n - 87)
  else none

/-- Form-urldecoding over characters: `+` becomes a space and `%HH` becomes
the escaped byte (single-byte escapes; multi-byte UTF-8 sequences are not
reassembled, which the router never relies on). -/
def decodeChars : List Char → List Char
  | [] => []
  | '+' :: rest => ' ' :: decodeChars rest
  | '%' :: h1 :: h2 :: rest =>
    match hexVal h1, hexVal h2 with
    | some a, some b => Char.ofNat (16 * a + b) :: decodeChars rest
    | _, _ => '%' :: decodeChars (h1 :: h2 :: rest)
  | c :: rest => c :: decodeChars rest
termination_by l => l.length
decreasing_by all_goals simp <;> omega

/-- `new URLSearchParams(string)`: split on `&`, drop empty chunks, split each
chunk at the first `=` (a chunk without `=` keeps an empty value), decode both
sides. -/
def parseParams (s : String) : Params :=
  (splitOnChar '&' s.data).filterMap (fun seg =>
    if seg.isEmpty then none
    else
      match splitAtChar '=' seg with
      | some (k, v) => some (String.mk (decodeChars k), String.mk (decodeChars v))
      | none => some (String.mk (decodeChars seg), ""))

/-- Modelled from the spec: the `STATES` constants are imported from
`src/utils/states.js`, which is not among the sources; the spec defines
RouteState as the enum `\x7bidle, loading, success, error\x7d` (the template
module additionally uses a fetching state for template caching). -/
inductive RouteState where
  | idle
  | loading
  | success
  | error
  | fetching
deriving DecidableEq

/-- Outcome of invoking one middleware on the shared context: the returned
value, or a thrown exception (the thrown value itself is never inspected). -/
inductive MWOutcome where
  | ret (v : JSValue)
  | exn

/-- The navigation context built once per dispatch cycle.  `params` is the
map of dynamic-segment captures; in `router.js` it is `undefined` for a
static route (`none` here), while `template.js` defaults it to an empty
object.  The bound `navigate` closure that `router.js` also places on the
context is opaque to every claim and omitted. -/
structure Context where
  path : Option String
  query : Obj
  params : Option Obj
deriving DecidableEq

/-- A middleware: an async function of the context that resolves to a value
or rejects. -/
abbrev Middleware := Context → MWOutcome

/-- Outcome of invoking a route handler. -/
inductive HOutcome where
  | ok
  | exn

/-- A route handler: an async function of the context that resolves or
rejects (its resolved value is never inspected). -/
abbrev Handler := Context → HOutcome

/-- An entry of the route registry, as stored by `register`. -/
structure RouteEntry where
  handler : Handler
  middlewares : List Middleware
  isDynamic : Bool

/-- The route registry `Router.routes`: a JavaScript object keyed by the
registered route name. -/
abbrev Routes := List (String × RouteEntry)

/-- The test `/:[^\x2f]+/.test(routeName)` of `register`: true when the name
contains a `:` immediately followed by a character other than `/`. -/
def hasParamToken : List Char → Bool
  | [] => false
  | ':' :: c :: rest => (c != '/') || hasParamToken (c :: rest)
  | _ :: rest => hasParamToken rest

/-- Whether a route name is dynamic, per the `paramRegex` scan in
`register`. -/
def isDynamicPattern (s : String) : Bool :=
  hasParamToken s.data

/-- `register(routeName, handler, middlewares)` (identical in both router
iterations): stores the entry under the route name, overwriting a previous
registration of the same name in place.  The callable-argument validation of
the source is enforced by typing here, so the thrown `InvalidRegistration`
error is unrepresentable. -/
def register (routes : Routes) (routeName : String) (handler : Handler)
    (middlewares : List Middleware) : Routes :=
  objUpsert routes routeName ⟨handler, middlewares, isDynamicPattern routeName⟩

/-- Matches the segments of a dynamic pattern against the segments of an
input name, mirroring the compiled regular expression
`^pattern.replace(/:[^\x2f]+/g, "([^\x2f]+)")$`: a pattern segment without
`:` must equal the input segment literally; a pattern segment with a `:`
matches when the input segment starts with the literal part before the first
`:` followed by at least one character, and captures that remainder under the
token name (everything after the first `:`).  Captures cannot span `/`, so
the segment counts must agree. -/
def matchSegs : List (List Char) → List (List Char) → Option (List (String × String))
  | [], [] => some []
  | p :: ps, i :: is =>
    match splitAtChar ':' p with
    | none => if p == i then matchSegs ps is else none
    | some (lead, tok) =>
      match consumeLead lead i with
      | some rest =>
        if rest.isEmpty then none
        else (matchSegs ps is).map (fun tail => (String.mk tok, String.mk rest) :: tail)
      | none => none
  | _, _ => none

/-- Whether the compiled matcher of the dynamic pattern `key` accepts the
input `n`, and the `params` object built from the named captures (successive
`params[key] = match[index + 1]` writes on a fresh object). -/
def routeMatches (key n : String) : Option Obj :=
  (matchSegs (splitOnChar '/' key.data) (splitOnChar '/' n.data)).map fromEntries

/-- Result object of `matchDynamicRoute`: the spread of the stored entry
plus the extracted `params` and the matched registered name. -/
structure MatchedRoute where
  handler : Handler
  middlewares : List Middleware
  isDynamic : Bool
  params : Obj
  routeName : String

/-- JavaScript truthiness of the `routeName` argument inside
`matchDynamicRoute` (null and the empty string are falsy). -/
def nameTruthy : Option String → Bool
  | none => false
  | some s => s != ""

/-- `matchDynamicRoute(routeName)` (identical in both router iterations):
walks the registry entries in insertion order and returns the first dynamic
entry whose compiled matcher accepts the input, together with its captured
parameters. -/
def matchDynamicRoute : Routes → Option String → Option MatchedRoute
  | [], _ => none
  | (key, value) :: rest, rn =>
    if value.isDynamic && nameTruthy rn then
      match rn with
      | some n =>
        match routeMatches key n with
        | some params =>
          some ⟨value.handler, value.middlewares, value.isDynamic, params, key⟩
        | none => matchDynamicRoute rest rn
      | none => matchDynamicRoute rest rn
    else matchDynamicRoute rest rn

/-- `executeMiddlewares(middlewares, context)` (identical in both router
iterations): runs every middleware on the shared context via `Promise.all`
and collects the results in order; a rejection is caught per middleware,
logged, and replaced by `false`, so no rejection aborts the others or the
pipeline. -/
def executeMiddlewares (middlewares : List Middleware) (context : Context) : List JSValue :=
  middlewares.map (fun middleware =>
    match middleware context with
    | .ret v => v
    | .exn => JSValue.bool false)

end Flxy

namespace Flxy.RouterJs

/-- The module state of `src/src/common/router.js`, plus the two collaborator
facts the router reads and writes: `locPathname` stands for
`window.location.pathname` and `pushedUrls` records the URLs pushed onto
`window.history` (the external location). -/
structure RouterState where
  currentPath : Option String := none
  currentQuery : Params := []
  listeners : List Nat := []
  history : List Obj := []
  routes : Routes := []
  routeStates : List (String × RouteState) := []
  locPathname : String := "/"
  pushedUrls : List String := []

/-- Result of `getParsedQuery()`. -/
structure ParsedQuery where
  routeName : Option String
  queryRoute : Option String
  params : Option Obj

/-- `getParsedQuery()`: reads the `route` parameter of the current query,
prefers an exact (static) registry hit, otherwise tries the dynamic matcher.
For a static hit `dynamicRoute` is the entry itself, whose `params` property
is `undefined` (`none` here); a null route name is looked up under the
coerced object key `"null"`. -/
def getParsedQuery (s : RouterState) : ParsedQuery :=
  let queryRoute := objGet s.currentQuery "route"
  let staticRoute :=
    match queryRoute with
    | some q => objGet s.routes q
    | none => objGet s.routes "null"
  match staticRoute with
  | some _ => { routeName := queryRoute, queryRoute := queryRoute, params := none }
  | none =>
    match matchDynamicRoute s.routes queryRoute with
    | some d => { routeName := some d.routeName, queryRoute := queryRoute, params := some d.params }
    | none => { routeName := none, queryRoute := queryRoute, params := none }

/-- The route name `handle` dispatches on. -/
def routeNameOf (s : RouterState) : Option String :=
  (getParsedQuery s).routeName

/-- The lookup `this.routes[routeName] || this.routes["/404"]` performed by
`handle` (a null name is coerced to the object key `"null"`). -/
def routeOf (s : RouterState) : Option RouteEntry :=
  (match routeNameOf s with
   | some n => objGet s.routes n
   | none => objGet s.routes "null").orElse
    (fun _ => objGet s.routes "/404")

/-- The key under which `handle` records route state: the dispatched route
name, with null coerced to the object key `"null"`. -/
def stateKeyOf (s : RouterState) : String :=
  match routeNameOf s with
  | some n => n
  | none => "null"

/-- The context object `handle` builds for the cycle. -/
def contextOf (s : RouterState) : Context :=
  { path := routeNameOf s
    query := fromEntries s.currentQuery
    params := (getParsedQuery s).params }

/-- Observable events of one `handle` call: the codes passed to
`ErrorHandler.handle` and the listener callbacks invoked (listener identity
paired with the context they receive, in invocation order). -/
structure HandleLog where
  errors : List Nat := []
  notified : List (Nat × Context) := []
deriving DecidableEq

/-- `notifyListeners(context)`: invokes every stored listener in insertion
order with the context. -/
def notifyListeners (s : RouterState) (context : Context) : List (Nat × Context) :=
  s.listeners.map (fun l => (l, context))

/-- `handle()` of `router.js`: resolve the route (falling back to `/404`),
record the loading state, run the middleware pipeline, then the handler.
The source returns `this.error(400)` early when some middleware result is
falsy, and notifies listeners only on the paths that reach past the
pipeline; a handler rejection is caught, logged and reported as a 500.
The route state is only ever set to loading or success. -/
def handle (s : RouterState) : RouterState × HandleLog :=
  let s1 := { s with currentPath := routeNameOf s }
  match routeOf s with
  | none => (s1, { errors := [404], notified := [] })
  | some entry =>
    let s2 := { s1 with routeStates := objUpsert s1.routeStates (stateKeyOf s) RouteState.loading }
    let context := contextOf s
    let results := executeMiddlewares entry.middlewares context
    if results.all JSValue.truthy then
      match entry.handler context with
      | .ok =>
        let s3 := { s2 with routeStates := objUpsert s2.routeStates (stateKeyOf s) RouteState.success }
        (s3, { errors := [], notified := notifyListeners s context })
      | .exn => (s2, { errors := [500], notified := notifyListeners s context })
    else (s2, { errors := [400], notified := [] })

/-- `getCurrentQuery()`: `Object.fromEntries(this.currentQuery)`. -/
def getCurrentQuery (s : RouterState) : Obj :=
  fromEntries s.currentQuery

/-- Result of the synchronous body of `navigate`; `dispatched` records
whether `this.handle()` was invoked (the asynchronous dispatch cycle
itself is modelled separately by `handle`, which never writes
`currentQuery`). -/
structure NavResult where
  state : RouterState
  dispatched : Bool

/-- `navigate(path, query)` of `router.js`: stamps `query.route = path`
(mutating the caller-supplied object; reference identity is modelled
separately in `RefModel`), serializes the object, and only when the result
differs from the serialized current query: replaces the current query,
pushes the URL onto the external history, appends the history entry, and
starts a dispatch cycle.  There is no navigation lock in this iteration. -/
def navigate (s : RouterState) (path : String) (query : Obj) : NavResult :=
  let query := objUpsert query "route" path
  let queryString := serializeParams query
  let fullUrl := s.locPathname ++ "?" ++ queryString
  if serializeParams s.currentQuery != queryString then
    { state := { s with
        currentQuery := query
        pushedUrls := s.pushedUrls ++ [fullUrl]
        history := s.history ++ [query] }
      dispatched := true }
  else
    { state := s, dispatched := false }

/-- `getHistory()`: `[...this.history]` (the copy; reference identity is
modelled separately in `RefModel`). -/
def getHistory (s : RouterState) : List Obj :=
  s.history

end Flxy.RouterJs

namespace Flxy.TemplateJs

/-- The module state of the router iteration in `src/src/common/template.js`:
the fields of the `Router` object plus the `navigating` single-flight lock
(initially absent, hence falsy), with `locPathname` standing for
`window.location.pathname` and `pushedUrls` recording the URLs pushed onto
`window.history`. -/
structure RouterState where
  currentPath : Option String := none
  currentQuery : Params := []
  listeners : List Nat := []
  history : List Obj := []
  routes : Routes := []
  routeStates : List (String × RouteState) := []
  navigating : Bool := false
  locPathname : String := "/"
  pushedUrls : List String := []

/-- Result of `getParsedQuery()` in this iteration, where `params` is
defaulted to an empty object by `dynamicRoute?.params || \x7b\x7d`. -/
structure ParsedQuery where
  routeName : Option String
  queryRoute : Option String
  params : Obj

/-- `getParsedQuery()` of the template iteration: like the `router.js` one
but with `params` defaulting to the empty object. -/
def getParsedQuery (s : RouterState) : ParsedQuery :=
  let queryRoute := objGet s.currentQuery "route"
  let staticRoute :=
    match queryRoute with
    | some q => objGet s.routes q
    | none => objGet s.routes "null"
  match staticRoute with
  | some _ => { routeName := queryRoute, queryRoute := queryRoute, params := [] }
  | none =>
    match matchDynamicRoute s.routes queryRoute with
    | some d => { routeName := some d.routeName, queryRoute := queryRoute, params := d.params }
    | none => { routeName := none, queryRoute := queryRoute, params := [] }

/-- The route name this iteration of `handle` dispatches on. -/
def routeNameOf (s : RouterState) : Option String :=
  (getParsedQuery s).routeName

/-- The lookup `Router.routes[routeName] || Router.routes["/404"]`. -/
def routeOf (s : RouterState) (n : String) : Option RouteEntry :=
  (objGet s.routes n).orElse (fun _ => objGet s.routes "/404")

/-- The context object this iteration of `handle` builds (no bound
`navigate` field in this variant). -/
def contextOf (s : RouterState) (n : String) : Context :=
  { path := some n
    query := fromEntries s.currentQuery
    params := some (getParsedQuery s).params }

/-- Observable events of one `handle` call, as in `RouterJs.HandleLog`. -/
structure HandleLog where
  errors : List Nat := []
  notified : List (Nat × Context) := []
deriving DecidableEq

/-- `notifyListeners(context)` of the template iteration. -/
def notifyListeners (s : RouterState) (context : Context) : List (Nat × Context) :=
  s.listeners.map (fun l => (l, context))

/-- Terminal outcome of one `handle(callback)` call: a normal return (with
the status object passed to the callback, when the callback is reached), or
an exception propagating out of the async function, leaving the state as it
was at the throw point. -/
inductive HandleResult where
  | normal (state : RouterState) (log : HandleLog) (status : Option Nat)
  | thrown (state : RouterState) (log : HandleLog)

/-- Whether the `handle` call ended by throwing. -/
def HandleResult.threw : HandleResult → Bool
  | .thrown _ _ => true
  | .normal _ _ _ => false

/-- The router state when the `handle` call ended. -/
def HandleResult.state : HandleResult → RouterState
  | .thrown s _ => s
  | .normal s _ _ => s

/-- The observable events of the `handle` call. -/
def HandleResult.log : HandleResult → HandleLog
  | .thrown _ l => l
  | .normal _ l _ => l

/-- `handle(callback)` of the template iteration.  Differences from
`router.js`: a missing route name returns early with a 404 status after
clearing the lock; `error(code)` clears the lock; and in the catch block the
caught exception is bound to the name `error`, shadowing the module-level
`error` function, so the call `error(500)` there invokes the caught
exception object, raises a TypeError, and the async function rejects without
notifying listeners or clearing the lock. -/
def handle (s : RouterState) : HandleResult :=
  match routeNameOf s with
  | none => .normal { s with navigating := false } {} (some 404)
  | some routeName =>
    let s1 := { s with currentPath := some routeName }
    match routeOf s routeName with
    | none => .normal { s1 with navigating := false } { errors := [404], notified := [] } (some 404)
    | some entry =>
      let s2 := { s1 with routeStates := objUpsert s1.routeStates routeName RouteState.loading }
      let context := contextOf s routeName
      let results := executeMiddlewares entry.middlewares context
      if results.all JSValue.truthy then
        match entry.handler context with
        | .ok =>
          let s3 := { s2 with routeStates := objUpsert s2.routeStates routeName RouteState.success }
          .normal { s3 with navigating := false }
            { errors := [], notified := notifyListeners s context } (some 200)
        | .exn => .thrown s2 { errors := [], notified := [] }
      else .normal { s2 with navigating := false } { errors := [400], notified := [] } none

/-- Models `new URL(path, window.location.origin)` for the root-relative
targets the router receives: `url.pathname` is the part before the first
question mark and `url.searchParams` parses the remainder. -/
def parseTarget (path : String) : String × Params :=
  match splitAtChar '?' path.data with
  | some (p, rest) => (String.mk p, parseParams (String.mk rest))
  | none => (path, [])

/-- The merged and stamped query object `navigate(path, query)` builds:
query parameters carried by the target, overridden by the explicit query
object, with `route` set to the target base path. -/
def canonicalQuery (path : String) (query : Obj) : Obj :=
  let basePath := (parseTarget path).1
  let pathQuery := fromEntries (parseTarget path).2
  let mergedQuery := objAssign pathQuery query
  objUpsert mergedQuery "route" basePath

/-- The canonical query string `navigate(path, query)` compares against the
serialized current query. -/
def canonicalQueryString (path : String) (query : Obj) : String :=
  serializeParams (canonicalQuery path query)

/-- Result of the synchronous body of `navigate`: the successor state,
whether `handle()` was invoked, the URL handed to `window.open` when the
blank flag is set, and whether the call was dropped because the lock was
held (the `Busy` log). -/
structure NavResult where
  state : RouterState
  dispatched : Bool
  opened : Option String
  busy : Bool

/-- `navigate(path, query, _blank)` of the template iteration: a call while
the lock is held only logs `Busy` and returns (nothing queued, no error
raised); otherwise the canonical query is built, and only when its
serialization differs from the serialized current query does the router take
the lock, replace the current query, push the URL onto the external history,
append the history entry, and start a dispatch cycle. -/
def navigate (s : RouterState) (path : String) (query : Obj) (blank : Bool) : NavResult :=
  if s.navigating then
    { state := s, dispatched := false, opened := none, busy := true }
  else
    let mergedQuery := canonicalQuery path query
    let queryString := serializeParams mergedQuery
    let fullUrl := s.locPathname ++ "?" ++ queryString
    if blank then
      { state := s, dispatched := false, opened := some fullUrl, busy := false }
    else if serializeParams s.currentQuery != queryString then
      { state := { s with
          navigating := true
          currentQuery := mergedQuery
          pushedUrls := s.pushedUrls ++ [fullUrl]
          history := s.history ++ [mergedQuery] }
        dispatched := true, opened := none, busy := false }
    else
      { state := s, dispatched := false, opened := none, busy := false }

/-- `getCurrentQuery()` of the template iteration. -/
def getCurrentQuery (s : RouterState) : Obj :=
  fromEntries s.currentQuery

/-- `getHistory()` of the template iteration: `[...Router.history]`. -/
def getHistory (s : RouterState) : List Obj :=
  s.history

end Flxy.TemplateJs

namespace Flxy.RefModel

/-- A heap of JavaScript query objects, for the properties that depend on
reference identity; a reference is an index into the heap. -/
abbrev Heap := List Obj

/-- The reference-aware fields of the `router.js` state that `navigate`
touches: the history holds references to the query objects it was given. -/
structure RefState where
  currentQuery : Params := []
  history : List Nat := []
  locPathname : String := "/"
  pushedUrls : List String := []

/-- `navigate(path, query)` of `router.js` with the query object passed by
reference: `query.route = path` mutates the caller-supplied object in the
heap before anything else, and an accepted navigation pushes a history entry
holding that same reference (no copy is taken). -/
def navigateRef (heap : Heap) (s : RefState) (path : String) (qref : Nat) :
    Heap × RefState × Bool :=
  let q := objUpsert ((heap.get? qref).getD []) "route" path
  let heap1 := heap.set qref q
  let queryString := serializeParams q
  let fullUrl := s.locPathname ++ "?" ++ queryString
  (heap1,
   if serializeParams s.currentQuery != queryString then
     ({ s with
         currentQuery := q
         pushedUrls := s.pushedUrls ++ [fullUrl]
         history := s.history ++ [qref] },
      true)
   else (s, false))

/-- A heap of JavaScript arrays of history entries, for the copy semantics
of `getHistory`. -/
abbrev ArrHeap := List (List Obj)

/-- `getHistory()` (identical in both router iterations) with the arrays
passed by reference: `[...history]` allocates a fresh array holding the same
elements and returns a reference to it, leaving the internal array alone. -/
def getHistoryRef (heap : ArrHeap) (historyRef : Nat) : ArrHeap × Nat :=
  (heap ++ [(heap.get? historyRef).getD []], heap.length)

end Flxy.RefModel

namespace Flxy

/-- A handler that resolves normally. -/
def okHandler : Handler := fun _ => .ok

/-- A handler that rejects (throws). -/
def throwHandler : Handler := fun _ => .exn

/-- A middleware that resolves to `true`. -/
def alwaysTrue : Middleware := fun _ => .ret (.bool true)

/-- A middleware that resolves to `false`. -/
def alwaysFalse : Middleware := fun _ => .ret (.bool false)

/-- A middleware that rejects (throws). -/
def alwaysThrow : Middleware := fun _ => .exn

/-- A registry with the dynamic patterns `/about/:id` and `/about/:slug`
registered in that order. -/
def aboutRoutes : Routes :=
  register (register [] "/about/:id" okHandler []) "/about/:slug" okHandler []

/-- Whether a registry entry is a dynamic one whose compiled matcher accepts
the given route name: the loop condition and regex test of
`matchDynamicRoute` for one entry. -/
def dynAccepts (rn : Option String) (kv : String × RouteEntry) : Bool :=
  kv.2.isDynamic && nameTruthy rn &&
    (match rn with
     | some n => (routeMatches kv.1 n).isSome
     | none => false)

end Flxy

namespace Flxy.RouterJs

/-- A `router.js` state with one subscribed listener and the route `/x`
registered behind a middleware that resolves to `false`, with the current
query targeting `/x`. -/
def rejectedSt : RouterState :=
  { currentQuery := [("route", "/x")]
    listeners := [0]
    routes := register [] "/x" okHandler [alwaysFalse] }

/-- A `router.js` state with one subscribed listener and the route `/y`
registered behind the concurrent pipeline `[alwaysTrue, alwaysFalse]`, with
the current query targeting `/y`. -/
def pipelineSt : RouterState :=
  { currentQuery := [("route", "/y")]
    listeners := [0]
    routes := register [] "/y" okHandler [alwaysTrue, alwaysFalse] }

/-- A `router.js` state with one subscribed listener and the route `/ok`
registered with no middlewares and a handler that resolves, targeted by the
current query. -/
def okSt : RouterState :=
  { currentQuery := [("route", "/ok")]
    listeners := [0]
    routes := register [] "/ok" okHandler [] }

end Flxy.RouterJs

namespace Flxy.TemplateJs

/-- A template-iteration state in the middle of a dispatch cycle started by
`navigate` (lock held), with one subscribed listener and the route `/boom`
registered with a handler that throws, targeted by the current query. -/
def boomSt : RouterState :=
  { currentQuery := [("route", "/boom")]
    listeners := [0]
    navigating := true
    routes := register [] "/boom" throwHandler [] }

end Flxy.TemplateJs

namespace Flxy

theorem objUpsert_keys_sub {α : Type} (l : List (String × α)) (k : String) (v : α) :
    ∀ x ∈ (objUpsert l k v).map Prod.fst, x ∈ l.map Prod.fst ∨ x = k := by
  induction l with
  | nil => simp [objUpsert]
  | cons kv rest ih =>
    obtain ⟨k', v'⟩ := kv
    intro x hx
    by_cases hk : (k' == k) = true
    · simp only [objUpsert, hk, if_true, List.map_cons, List.mem_cons] at hx ⊢
      rcases hx with h | h
      · right; exact h
      · left; right; exact h
    · simp only [objUpsert, hk, if_false, Bool.false_eq_true, List.map_cons,
        List.mem_cons] at hx ⊢
      rcases hx with h | h
      · left; left; exact h
      · rcases ih x h with h2 | h2
        · left; right; exact h2
        · right; exact h2

theorem objUpsert_keys_nodup {α : Type} (l : List (String × α)) (k : String) (v : α)
    (h : (l.map Prod.fst).Nodup) : ((objUpsert l k v).map Prod.fst).Nodup := by
  induction l with
  | nil => simp [objUpsert]
  | cons kv rest ih =>
    obtain ⟨k', v'⟩ := kv
    rw [List.map_cons, List.nodup_cons] at h
    by_cases hk : (k' == k) = true
    · have hkk : k' = k := by simpa using hk
      simp only [objUpsert, hk, if_true, List.map_cons, List.nodup_cons]
      exact ⟨hkk ▸ h.1, h.2⟩
    · simp only [objUpsert, hk, if_false, Bool.false_eq_true, List.map_cons,
        List.nodup_cons]
      refine ⟨?_, ih h.2⟩
      intro hmem
      rcases objUpsert_keys_sub rest k v k' hmem with h2 | h2
      · exact h.1 h2
      · exact hk (by simpa using h2)

theorem matchDynamicRoute_first (routes : Routes) (rn : Option String) (m : MatchedRoute)
    (h : matchDynamicRoute routes rn = some m) :
    ∃ pre key entry post, routes = pre ++ (key, entry) :: post ∧
      (∀ kv ∈ pre, dynAccepts rn kv = false) ∧
      dynAccepts rn (key, entry) = true ∧ m.routeName = key := by
  induction routes with
  | nil => simp [matchDynamicRoute] at h
  | cons kv rest ih =>
    obtain ⟨k, v⟩ := kv
    cases hc : (v.isDynamic && nameTruthy rn) with
    | true =>
      cases rn with
      | none => simp [nameTruthy, Bool.and_false] at hc
      | some n =>
        cases hm : routeMatches k n with
        | some params =>
          have heq : matchDynamicRoute ((k, v) :: rest) (some n) =
              some ⟨v.handler, v.middlewares, v.isDynamic, params, k⟩ := by
            simp [matchDynamicRoute, hc, hm]
          rw [heq] at h
          injection h with h2
          subst h2
          exact ⟨[], k, v, rest, rfl, by simp, by simp [dynAccepts, hc, hm], rfl⟩
        | none =>
          have hrec : matchDynamicRoute ((k, v) :: rest) (some n) =
              matchDynamicRoute rest (some n) := by
            simp [matchDynamicRoute, hc, hm]
          rw [hrec] at h
          obtain ⟨pre, key, entry, post, e1, e2, e3, e4⟩ := ih h
          refine ⟨(k, v) :: pre, key, entry, post, by rw [e1]; rfl, ?_, e3, e4⟩
          intro kv hkv
          rcases List.mem_cons.mp hkv with h1 | h1
          · subst h1; simp [dynAccepts, hc, hm]
          · exact e2 kv h1
    | false =>
      have hrec : matchDynamicRoute ((k, v) :: rest) rn = matchDynamicRoute rest rn := by
        simp [matchDynamicRoute, hc]
      rw [hrec] at h
      obtain ⟨pre, key, entry, post, e1, e2, e3, e4⟩ := ih h
      refine ⟨(k, v) :: pre, key, entry, post, by rw [e1]; rfl, ?_, e3, e4⟩
      intro kv hkv
      rcases List.mem_cons.mp hkv with h1 | h1
      · subst h1; simp [dynAccepts, hc]
      · exact e2 kv h1

/-- C4: with the dynamic patterns `/about/:id` and `/about/:slug` registered
in that order, resolving `/about/42` matches `/about/:id` and extracts
`params = \x7bid: "42"\x7d`; in general the result of `matchDynamicRoute` is
the first registered dynamic entry whose compiled matcher accepts the input,
and `register` keeps registry keys unique, so a name resolves to at most one
entry. -/
theorem about42_first_registered_wins :
    ((matchDynamicRoute aboutRoutes (some "/about/42")).map MatchedRoute.routeName
        = some "/about/:id"
      ∧ (matchDynamicRoute aboutRoutes (some "/about/42")).map MatchedRoute.params
        = some [("id", "42")])
    ∧ (∀ routes rn m, matchDynamicRoute routes rn = some m →
        ∃ pre key entry post, routes = pre ++ (key, entry) :: post ∧
          (∀ kv ∈ pre, dynAccepts rn kv = false) ∧
          dynAccepts rn (key, entry) = true ∧ m.routeName = key)
    ∧ (∀ routes p hd mws, (routes.map Prod.fst).Nodup →
        ((register routes p hd mws).map Prod.fst).Nodup) := by
  refine ⟨⟨by decide, by decide⟩, matchDynamicRoute_first, ?_⟩
  intro routes p hd mws h
  exact objUpsert_keys_nodup routes p _ h

end Flxy

namespace Flxy

theorem objGet_objUpsert_self {α : Type} (l : List (String × α)) (k : String) (v : α) :
    objGet (objUpsert l k v) k = some v := by
  induction l with
  | nil => simp [objUpsert, objGet]
  | cons kv rest ih =>
    obtain ⟨k', v'⟩ := kv
    by_cases hk : (k' == k) = true
    · simp [objUpsert, hk, objGet]
    · simp [objUpsert, hk, objGet, ih]

/-- C5: `executeMiddlewares` produces one result per middleware (none is
skipped), the i-th result is exactly the caught outcome of the i-th
middleware alone (a rejection becomes the blocking value `false` without
affecting any sibling), and the pipeline check used by `handle` passes iff
every result is truthy. -/
theorem executeMiddlewares_complete (ms : List Middleware) (ctx : Context) :
    (executeMiddlewares ms ctx).length = ms.length
    ∧ (∀ i : Nat, (executeMiddlewares ms ctx).get? i
        = (ms.get? i).map (fun mw =>
            match mw ctx with
            | .ret v => v
            | .exn => JSValue.bool false))
    ∧ ((executeMiddlewares ms ctx).all JSValue.truthy = true ↔
        ∀ r ∈ executeMiddlewares ms ctx, r.truthy = true) := by
  refine ⟨by simp [executeMiddlewares], fun i => by simp [executeMiddlewares], ?_⟩
  exact List.all_eq_true

/-- Witness for C5 at the pipeline `[alwaysTrue, alwaysThrow]`: both
middlewares run and the thrown one contributes the blocking value `false`. -/
theorem executeMiddlewares_complete_witness :
    (executeMiddlewares [alwaysTrue, alwaysThrow] ⟨none, [], none⟩).length = 2
    ∧ (executeMiddlewares [alwaysTrue, alwaysThrow] ⟨none, [], none⟩).get? 1
        = some (JSValue.bool false) :=
  ⟨(executeMiddlewares_complete [alwaysTrue, alwaysThrow] ⟨none, [], none⟩).1,
   (executeMiddlewares_complete [alwaysTrue, alwaysThrow] ⟨none, [], none⟩).2.1 1⟩

end Flxy

namespace Flxy.RouterJs

/-- C2 is false as stated on `router.js`: in the state `rejectedSt` one
listener is subscribed, the dispatch cycle terminates with a middleware
rejection, and no listener is invoked (the cycle returns from
`this.error(400)` before reaching `notifyListeners`). -/
theorem rejected_pipeline_skips_listeners :
    rejectedSt.listeners ≠ [] ∧ (handle rejectedSt).2.notified = [] := by
  exact ⟨by decide, by decide⟩

/-- C2 (amended): listeners are all invoked with the final context exactly on
the dispatch cycles that get past the middleware pipeline (whether the
handler then resolves or throws); on a middleware rejection, and when no
route resolves, `handle` returns early and no listener is invoked. -/
theorem handle_notifies_iff_pipeline_passes :
    (∀ s entry, routeOf s = some entry →
        ((executeMiddlewares entry.middlewares (contextOf s)).all JSValue.truthy = true →
          (handle s).2.notified = s.listeners.map (fun l => (l, contextOf s)))
        ∧ ((executeMiddlewares entry.middlewares (contextOf s)).all JSValue.truthy = false →
          (handle s).2.notified = []))
    ∧ (∀ s, routeOf s = none → (handle s).2.notified = []) := by
  constructor
  · intro s entry h
    constructor
    · intro hp
      simp only [handle, h, hp, if_true]
      cases hh : entry.handler (contextOf s) with
      | ok => simp [hh, notifyListeners]
      | exn => simp [hh, notifyListeners]
    · intro hp
      simp [handle, h, hp]
  · intro s h
    simp [handle, h]

/-- Witness for the amended C2 on a successful dispatch: in `okSt` the
subscribed listener is invoked with the final context. -/
theorem handle_notifies_witness :
    (handle okSt).2.notified = okSt.listeners.map (fun l => (l, contextOf okSt)) :=
  (handle_notifies_iff_pipeline_passes.1 okSt ⟨okHandler, [], false⟩ rfl).1 (by decide)

/-- C3 is false as stated on `router.js`: in the state `pipelineSt` (the
pipeline `[alwaysTrue, alwaysFalse]`) the dispatch surfaces a 400-class
result, but the recorded state for the route stays `loading`; it does not
become `error`. -/
theorem pipeline_failure_not_error_state :
    (handle pipelineSt).2.errors = [400]
    ∧ objGet (handle pipelineSt).1.routeStates "/y" = some RouteState.loading
    ∧ objGet (handle pipelineSt).1.routeStates "/y" ≠ some RouteState.error := by
  exact ⟨by decide, by decide, by decide⟩

/-- C3 (amended): when the middleware pipeline fails for a resolved route,
the state recorded for the route name remains `loading` (set at the start of
the dispatch; the code never records the `error` state), and the dispatch
surfaces a 400-class result. -/
theorem pipeline_failure_leaves_loading :
    ∀ s entry, routeOf s = some entry →
      (executeMiddlewares entry.middlewares (contextOf s)).all JSValue.truthy = false →
      objGet (handle s).1.routeStates (stateKeyOf s) = some RouteState.loading
      ∧ (handle s).2.errors = [400] := by
  intro s entry h hp
  simp only [handle, h, hp, Bool.false_eq_true, if_false]
  exact ⟨objGet_objUpsert_self _ _ _, trivial⟩

/-- Witness for the amended C3 at `pipelineSt`. -/
theorem pipeline_failure_leaves_loading_witness :
    objGet (handle pipelineSt).1.routeStates (stateKeyOf pipelineSt) = some RouteState.loading
    ∧ (handle pipelineSt).2.errors = [400] :=
  pipeline_failure_leaves_loading pipelineSt ⟨okHandler, [alwaysTrue, alwaysFalse], false⟩
    rfl (by decide)

end Flxy.RouterJs

namespace Flxy.TemplateJs

/-- C1: the template-iteration code violates this claim.  Evaluated at
`boomSt` (lock held by `navigate`, handler throws): inside the catch block
the caught exception shadows the module-level `error` function, so the call
`error(500)` raises a TypeError; the dispatch cycle ends by throwing, no
listener is notified, and `Router.navigating` remains `true`, so every later
`navigate` call is dropped as busy. -/
theorem handler_throw_crashes_and_keeps_lock :
    (handle boomSt).threw = true
    ∧ (handle boomSt).state.navigating = true
    ∧ (handle boomSt).log.notified = [] := by
  exact ⟨by decide, by decide, by decide⟩

end Flxy.TemplateJs

namespace Flxy.TemplateJs

/-- C6: a `navigate` call while the navigation lock is held only logs `Busy`
and returns: the state (history, current query, pushed URLs) is untouched,
no dispatch starts, and no error reaches the caller; consequently two calls
in rapid succession, the second with the lock held, produce exactly one
dispatch cycle and exactly one history entry. -/
theorem navigate_locked_is_dropped :
    (∀ s path q blank, s.navigating = true →
        navigate s path q blank
          = { state := s, dispatched := false, opened := none, busy := true })
    ∧ (∀ s path q path2 q2, s.navigating = false →
        canonicalQueryString path q ≠ serializeParams s.currentQuery →
        (navigate s path q false).dispatched = true
        ∧ (navigate s path q false).state.history.length = s.history.length + 1
        ∧ (navigate s path q false).state.navigating = true
        ∧ navigate (navigate s path q false).state path2 q2 false
            = { state := (navigate s path q false).state, dispatched := false,
                opened := none, busy := true }) := by
  constructor
  · intro s path q blank h
    simp [navigate, h]
  · intro s path q path2 q2 hl hq
    have hcond : (serializeParams s.currentQuery
        != serializeParams (canonicalQuery path q)) = true :=
      bne_iff_ne.mpr (Ne.symm hq)
    have hnav : navigate s path q false =
        { state := { s with
              navigating := true
              currentQuery := canonicalQuery path q
              pushedUrls := s.pushedUrls
                ++ [s.locPathname ++ "?" ++ serializeParams (canonicalQuery path q)]
              history := s.history ++ [canonicalQuery path q] }
          dispatched := true, opened := none, busy := false } := by
      simp [navigate, hl, hcond]
    rw [hnav]
    refine ⟨rfl, by simp, rfl, ?_⟩
    simp [navigate]

/-- Witness for C6: from a fresh state, a first accepted `navigate` starts
one dispatch cycle and appends one history entry, and a second call issued
while that cycle still holds the lock is dropped. -/
theorem navigate_locked_witness :
    (navigate ({} : RouterState) "/a" [] false).dispatched = true
    ∧ (navigate ({} : RouterState) "/a" [] false).state.history.length
        = ({} : RouterState).history.length + 1
    ∧ (navigate ({} : RouterState) "/a" [] false).state.navigating = true
    ∧ navigate (navigate ({} : RouterState) "/a" [] false).state "/b" [] false
        = { state := (navigate ({} : RouterState) "/a" [] false).state,
            dispatched := false, opened := none, busy := true } :=
  navigate_locked_is_dropped.2 {} "/a" [] "/b" [] rfl (by decide)

/-- C7: when the canonical query string built by `navigate` (target query
merged with overrides and stamped with the route name) equals the serialized
current query, `navigate` is a no-op in both router iterations: the state is
unchanged (no history entry, no location push) and no dispatch cycle
starts. -/
theorem navigate_same_query_noop :
    (∀ (s : RouterState) path q,
        canonicalQueryString path q = serializeParams s.currentQuery →
        (navigate s path q false).state = s
        ∧ (navigate s path q false).dispatched = false)
    ∧ (∀ (s : RouterJs.RouterState) path q,
        serializeParams (objUpsert q "route" path) = serializeParams s.currentQuery →
        RouterJs.navigate s path q = { state := s, dispatched := false }) := by
  constructor
  · intro s path q h
    cases hnav : s.navigating with
    | true => constructor <;> simp [navigate, hnav]
    | false =>
      have hcond : (serializeParams s.currentQuery
          != serializeParams (canonicalQuery path q)) = false :=
        bne_eq_false_iff_eq.mpr h.symm
      constructor <;> simp [navigate, hnav, hcond]
  · intro s path q h
    have hcond : (serializeParams s.currentQuery
        != serializeParams (objUpsert q "route" path)) = false :=
      bne_eq_false_iff_eq.mpr h.symm
    simp [RouterJs.navigate, hcond]

/-- Witness for C7 in both iterations, with the current query already equal
to the canonical query for the target `/a`. -/
theorem navigate_same_query_witness :
    ((navigate ({ currentQuery := [("route", "/a")] } : RouterState) "/a" [] false).state
        = { currentQuery := [("route", "/a")] }
      ∧ (navigate ({ currentQuery := [("route", "/a")] } : RouterState) "/a" [] false).dispatched
        = false)
    ∧ RouterJs.navigate ({ currentQuery := [("route", "/a")] } : RouterJs.RouterState) "/a" []
        = { state := { currentQuery := [("route", "/a")] }, dispatched := false } :=
  ⟨navigate_same_query_noop.1 _ "/a" [] (by decide),
   navigate_same_query_noop.2 _ "/a" [] (by decide)⟩

/-- C8: from any state that accepts the navigation, the current query read
back immediately after `navigate` to `/about` with override `id = 7` is the
map with exactly the entries `route = /about` and `id = 7` (stated for the
`router.js` iteration, which has no lock, and for the template iteration,
whose acceptance also requires the lock to be free). -/
theorem getCurrentQuery_roundtrip :
    (∀ s : RouterJs.RouterState,
        serializeParams (objUpsert [("id", "7")] "route" "/about")
          ≠ serializeParams s.currentQuery →
        (RouterJs.getCurrentQuery (RouterJs.navigate s "/about" [("id", "7")]).state).Perm
          [("route", "/about"), ("id", "7")])
    ∧ (∀ s : RouterState, s.navigating = false →
        canonicalQueryString "/about" [("id", "7")] ≠ serializeParams s.currentQuery →
        (getCurrentQuery (navigate s "/about" [("id", "7")] false).state).Perm
          [("route", "/about"), ("id", "7")]) := by
  constructor
  · intro s h
    have hcond : (serializeParams s.currentQuery
        != serializeParams (objUpsert [("id", "7")] "route" "/about")) = true :=
      bne_iff_ne.mpr (Ne.symm h)
    simp only [RouterJs.navigate, hcond, if_true, RouterJs.getCurrentQuery]
    have he : fromEntries (objUpsert [("id", "7")] "route" "/about")
        = [("id", "7"), ("route", "/about")] := by decide
    rw [he]
    exact List.Perm.swap _ _ _
  · intro s hl h
    have hcond : (serializeParams s.currentQuery
        != serializeParams (canonicalQuery "/about" [("id", "7")])) = true :=
      bne_iff_ne.mpr (Ne.symm h)
    simp only [navigate, hl, Bool.false_eq_true, if_false, hcond, if_true, getCurrentQuery]
    have he : fromEntries (canonicalQuery "/about" [("id", "7")])
        = [("id", "7"), ("route", "/about")] := by decide
    rw [he]
    exact List.Perm.swap _ _ _

/-- Witness for C8 from fresh states of both iterations. -/
theorem getCurrentQuery_roundtrip_witness :
    (RouterJs.getCurrentQuery
        (RouterJs.navigate ({} : RouterJs.RouterState) "/about" [("id", "7")]).state).Perm
      [("route", "/about"), ("id", "7")]
    ∧ (getCurrentQuery
        (navigate ({} : RouterState) "/about" [("id", "7")] false).state).Perm
      [("route", "/about"), ("id", "7")] :=
  ⟨getCurrentQuery_roundtrip.1 {} (by decide),
   getCurrentQuery_roundtrip.2 {} rfl (by decide)⟩

end Flxy.TemplateJs

namespace Flxy.RefModel

theorem listSetGetSame {α : Type} (l : List α) (i : Nat) (a : α) (h : i < l.length) :
    (l.set i a).get? i = some a := by
  induction l generalizing i with
  | nil => simp at h
  | cons x xs ih =>
    cases i with
    | zero => simp [List.set]
    | succ n =>
      simp only [List.set, List.get?]
      exact ih n (by simpa using h)

theorem listSetGetOther {α : Type} (l : List α) (i j : Nat) (a : α) (h : i ≠ j) :
    (l.set i a).get? j = l.get? j := by
  induction l generalizing i j with
  | nil => simp
  | cons x xs ih =>
    cases i with
    | zero =>
      cases j with
      | zero => exact absurd rfl h
      | succ m => simp [List.set]
    | succ n =>
      cases j with
      | zero => simp [List.set]
      | succ m =>
        simp only [List.set, List.get?]
        exact ih n m (fun hh => h (by rw [hh]))

theorem listGetLt {α : Type} (l : List α) (i : Nat) (a : α) (h : l.get? i = some a) :
    i < l.length := by
  by_contra hc
  rw [List.get?_eq_none.mpr (Nat.le_of_not_lt hc)] at h
  cases h

/-- C9: `navigate(path, query)` of `router.js` writes `query.route = path`
into the caller-supplied object itself (before the change check, so even a
rejected call mutates it), and an accepted navigation records a history
entry holding that same reference, so a later in-place mutation of the
caller object is what dereferencing the recorded entry yields. -/
theorem navigate_mutates_caller_object :
    ∀ (heap : Heap) (s : RefState) (path : String) (qref : Nat) (q0 : Obj),
      heap.get? qref = some q0 →
      (navigateRef heap s path qref).1.get? qref = some (objUpsert q0 "route" path)
      ∧ ((navigateRef heap s path qref).2.2 = true →
          (navigateRef heap s path qref).2.1.history = s.history ++ [qref])
      ∧ (∀ q2 : Obj, ((navigateRef heap s path qref).1.set qref q2).get? qref = some q2) := by
  intro heap s path qref q0 h
  have hlt : qref < heap.length := listGetLt heap qref q0 h
  refine ⟨?_, ?_, ?_⟩
  · simp only [navigateRef, h]
    exact listSetGetSame heap qref _ hlt
  · intro hd
    simp only [navigateRef] at hd ⊢
    split at hd
    · simp_all
    · cases hd
  · intro q2
    simp only [navigateRef]
    exact listSetGetSame _ qref q2 (by simpa using hlt)

/-- Witness for C9: a one-object heap, the rejected-or-accepted call is
accepted (fresh state), the object is mutated in place, the history entry is
the same reference, and a later heap write at that reference is what the
entry dereferences to. -/
theorem navigate_mutates_witness :
    (navigateRef [[("a", "1")]] {} "/p" 0).1.get? 0
        = some (objUpsert [("a", "1")] "route" "/p")
    ∧ (navigateRef [[("a", "1")]] {} "/p" 0).2.1.history = [0]
    ∧ ((navigateRef [[("a", "1")]] {} "/p" 0).1.set 0 [("b", "2")]).get? 0
        = some [("b", "2")] :=
  ⟨(navigate_mutates_caller_object [[("a", "1")]] {} "/p" 0 [("a", "1")] rfl).1,
   (navigate_mutates_caller_object [[("a", "1")]] {} "/p" 0 [("a", "1")] rfl).2.1 (by decide),
   (navigate_mutates_caller_object [[("a", "1")]] {} "/p" 0 [("a", "1")] rfl).2.2 [("b", "2")]⟩

/-- C10: `getHistory()` returns a fresh shallow copy of the internal history
array: the returned reference is distinct from the internal one, carries the
same elements, and overwriting the returned array leaves both the internal
history and the result of a subsequent `getHistory()` unchanged. -/
theorem getHistory_copy_isolated :
    ∀ (heap : ArrHeap) (r : Nat) (h0 : List Obj),
      heap.get? r = some h0 →
      (getHistoryRef heap r).2 ≠ r
      ∧ (getHistoryRef heap r).1.get? (getHistoryRef heap r).2 = some h0
      ∧ (getHistoryRef heap r).1.get? r = some h0
      ∧ ∀ a2 : List Obj,
          ((getHistoryRef heap r).1.set (getHistoryRef heap r).2 a2).get? r = some h0
          ∧ (getHistoryRef ((getHistoryRef heap r).1.set (getHistoryRef heap r).2 a2) r).1.get?
              (getHistoryRef ((getHistoryRef heap r).1.set (getHistoryRef heap r).2 a2) r).2
            = some h0 := by
  intro heap r h0 h
  have hlt : r < heap.length := listGetLt heap r h0 h
  have hcopy : (getHistoryRef heap r).1.get? r = some h0 := by
    simp only [getHistoryRef]
    rw [List.get?_append hlt]
    exact h
  have hne : heap.length ≠ r := Nat.ne_of_gt hlt
  have hset : ∀ a2 : List Obj,
      ((getHistoryRef heap r).1.set (getHistoryRef heap r).2 a2).get? r = some h0 := by
    intro a2
    simp only [getHistoryRef]
    rw [listSetGetOther _ _ _ _ hne, List.get?_append hlt]
    exact h
  refine ⟨hne, ?_, hcopy, ?_⟩
  · simp only [getHistoryRef, h]
    exact List.get?_concat_length heap h0
  · intro a2
    refine ⟨hset a2, ?_⟩
    set hp2 := (getHistoryRef heap r).1.set (getHistoryRef heap r).2 a2 with hhp2
    have hB : hp2.get? r = some h0 := hset a2
    simp only [getHistoryRef, hB, Option.getD_some]
    exact List.get?_concat_length hp2 h0

/-- Witness for C10 at a one-array heap holding one history entry. -/
theorem getHistory_copy_witness :
    (getHistoryRef [[[("route", "/x")]]] 0).2 ≠ 0
    ∧ (getHistoryRef [[[("route", "/x")]]] 0).1.get? (getHistoryRef [[[("route", "/x")]]] 0).2
        = some [[("route", "/x")]]
    ∧ (getHistoryRef [[[("route", "/x")]]] 0).1.get? 0 = some [[("route", "/x")]]
    ∧ ((getHistoryRef [[[("route", "/x")]]] 0).1.set (getHistoryRef [[[("route", "/x")]]] 0).2 []).get? 0
        = some [[("route", "/x")]]
    ∧ (getHistoryRef ((getHistoryRef [[[("route", "/x")]]] 0).1.set
          (getHistoryRef [[[("route", "/x")]]] 0).2 []) 0).1.get?
        (getHistoryRef ((getHistoryRef [[[("route", "/x")]]] 0).1.set
          (getHistoryRef [[[("route", "/x")]]] 0).2 []) 0).2
        = some [[("route", "/x")]] :=
  ⟨(getHistory_copy_isolated [[[("route", "/x")]]] 0 [[("route", "/x")]] rfl).1,
   (getHistory_copy_isolated [[[("route", "/x")]]] 0 [[("route", "/x")]] rfl).2.1,
   (getHistory_copy_isolated [[[("route", "/x")]]] 0 [[("route", "/x")]] rfl).2.2.1,
   ((getHistory_copy_isolated [[[("route", "/x")]]] 0 [[("route", "/x")]] rfl).2.2.2 []).1,
   ((getHistory_copy_isolated [[[("route", "/x")]]] 0 [[("route", "/x")]] rfl).2.2.2 []).2⟩

end Flxy.RefModel

namespace Flxy

/-- Witness for C4 at a concrete registration: registering into the empty
registry keeps the key list duplicate-free. -/
theorem about42_first_registered_wins_witness :
    ((register [] "/about/:id" okHandler []).map Prod.fst).Nodup :=
  about42_first_registered_wins.2.2 [] "/about/:id" okHandler [] List.nodup_nil

end Flxy
